import Mathlib

/-!
Verification of the governed action-execution framework: a shallow embedding
of the GitHub connector (src/server/connectors/github.ts) and the API route
layer (src/server/routes.ts), together with spec-modelled definitions for the
executor and planner services whose sources are not in the repository snapshot.

Pure fragments are translated directly; provider I/O (fetch calls) is
modelled by passing the fetched responses in explicitly, and the wall clock
(Date.now / toISOString) by explicit parameters.
-/

namespace AAPS

open String

/- ===== String helper lemmas (used to reason about String.startsWith) ===== -/

theorem substrEqLoopOfCommon (m : List Char) :
    ∀ (a b c d : List Char),
      String.substrEq.loop ⟨a ++ m ++ b⟩ ⟨c ++ m ++ d⟩ ⟨utf8Len a⟩ ⟨utf8Len c⟩
        ⟨utf8Len a + utf8Len m⟩ = true := by
  induction m with
  | nil =>
    intro a b c d
    unfold String.substrEq.loop
    simp
  | cons ch m ih =>
    intro a b c d
    unfold String.substrEq.loop
    have hlt : utf8Len a < utf8Len a + utf8Len (ch :: m) := by
      have := Char.utf8Size_pos ch
      simp only [utf8Len_cons]
      omega
    rw [dif_pos hlt]
    have hget1 : String.get ⟨a ++ (ch :: m) ++ b⟩ ⟨utf8Len a⟩ = ch := by
      have h : a ++ (ch :: m) ++ b = a ++ (ch :: (m ++ b)) := by simp
      rw [h]
      exact String.get_of_valid a (ch :: (m ++ b))
    have hget2 : String.get ⟨c ++ (ch :: m) ++ d⟩ ⟨utf8Len c⟩ = ch := by
      have h : c ++ (ch :: m) ++ d = c ++ (ch :: (m ++ d)) := by simp
      rw [h]
      exact String.get_of_valid c (ch :: (m ++ d))
    rw [hget1, hget2]
    simp only [beq_self_eq_true, Bool.true_and]
    have h1 : (⟨utf8Len a⟩ : Pos) + ch = ⟨utf8Len (a ++ [ch])⟩ := by
      simp [Pos.ext_iff, Pos.addChar_eq]
    have h2 : (⟨utf8Len c⟩ : Pos) + ch = ⟨utf8Len (c ++ [ch])⟩ := by
      simp [Pos.ext_iff, Pos.addChar_eq]
    have h3 : (⟨utf8Len a + utf8Len (ch :: m)⟩ : Pos) = ⟨utf8Len (a ++ [ch]) + utf8Len m⟩ := by
      simp only [Pos.ext_iff, utf8Len_cons, utf8Len_append, utf8Len_nil]
      omega
    have h4 : a ++ (ch :: m) ++ b = (a ++ [ch]) ++ m ++ b := by simp
    have h5 : c ++ (ch :: m) ++ d = (c ++ [ch]) ++ m ++ d := by simp
    rw [h1, h2, h3, h4, h5]
    exact ih (a ++ [ch]) b (c ++ [ch]) d

theorem substrEqOfCommon (m a b c d : List Char) :
    String.substrEq ⟨a ++ m ++ b⟩ ⟨utf8Len a⟩ ⟨c ++ m ++ d⟩ ⟨utf8Len c⟩ (utf8Len m) = true := by
  unfold String.substrEq
  have hb1 : utf8Len a + utf8Len m ≤ (⟨a ++ m ++ b⟩ : String).endPos.byteIdx := by
    simp only [endPos_eq, utf8Len_append]
    omega
  have hb2 : utf8Len c + utf8Len m ≤ (⟨c ++ m ++ d⟩ : String).endPos.byteIdx := by
    simp only [endPos_eq, utf8Len_append]
    omega
  simp only [Pos.byteIdx] at *
  rw [decide_eq_true hb1, decide_eq_true hb2]
  simp only [Bool.true_and]
  exact substrEqLoopOfCommon m a b c d

theorem startsWithAppend (p t : String) : (p ++ t).startsWith p = true := by
  unfold String.startsWith
  have hv := (String.validFor_toSubstring (p ++ t)).take p.length
  rw [String.data_append, List.take_left' (show p.data.length = p.length from rfl),
    List.drop_left' (show p.data.length = p.length from rfl)] at hv
  show Substring.beq _ _ = true
  unfold Substring.beq
  have hbs2 : p.toSubstring.bsize = utf8Len p.1 := (String.validFor_toSubstring p).bsize
  rw [hv.bsize, hbs2, hv.str, hv.startPos]
  have hstr : p.toSubstring.str = p := rfl
  have hsp : p.toSubstring.startPos = 0 := rfl
  rw [hstr, hsp]
  simp only [beq_self_eq_true, Bool.true_and]
  have key := substrEqOfCommon p.1 [] (t.1 ++ []) [] []
  simp only [List.nil_append, List.append_nil, utf8Len_nil, Pos.mk_zero] at key ⊢
  exact key

/- ===== Data model (src/shared/types, as used by the connector) ===== -/


/-- Minimum authorization tier required to invoke an action. -/
inductive AuthLevel
  | READ
  | WRITE_LOW
  | WRITE_HIGH
deriving DecidableEq, Repr

/-- Execution modes an action accepts. -/
inductive ExecutionMode
  | AUTO
  | PLAN_ONLY
  | READ_ONLY
deriving DecidableEq, Repr

/-- Whether executing an action produces rollback instructions. -/
inductive Rollbackability
  | YES
  | NO
deriving DecidableEq, Repr

/-- Blast-radius classification of an action. -/
inductive RiskLevel
  | LOW
  | MED
  | HIGH
deriving DecidableEq, Repr

/-- One action a connector can perform (shared/types ActionCapability). -/
structure ActionCapability where
  id : String
  version : String
  authLevel : AuthLevel
  supportedModes : List ExecutionMode
  rollback : Rollbackability
  risk : RiskLevel
  policyConstraints : List String := []
  limitations : List String
deriving DecidableEq, Repr

/- ===== GitHub connector: declared catalog (github.ts lines 35-110) ===== -/

/-- The static action catalog GITHUB_ACTIONS of src/server/connectors/github.ts. -/
def GITHUB_ACTIONS : List ActionCapability := [
  { id := "github.repo.get_settings",
    version := "1.0.0",
    authLevel := .READ,
    supportedModes := [.AUTO, .PLAN_ONLY, .READ_ONLY],
    rollback := .NO,
    risk := .LOW,
    limitations := ["Requires repo access"] },
  { id := "github.repo.get_branch_protection",
    version := "1.0.0",
    authLevel := .READ,
    supportedModes := [.AUTO, .PLAN_ONLY, .READ_ONLY],
    rollback := .NO,
    risk := .LOW,
    limitations := ["Requires repo access"] },
  { id := "github.repo.set_branch_protection",
    version := "1.0.0",
    authLevel := .WRITE_HIGH,
    supportedModes := [.AUTO, .PLAN_ONLY],
    rollback := .YES,
    risk := .MED,
    limitations := ["Requires admin access to repository"] },
  { id := "github.repo.enable_vulnerability_alerts",
    version := "1.0.0",
    authLevel := .WRITE_LOW,
    supportedModes := [.AUTO, .PLAN_ONLY],
    rollback := .YES,
    risk := .LOW,
    limitations := ["Requires write access"] },
  { id := "github.repo.enable_automated_security_fixes",
    version := "1.0.0",
    authLevel := .WRITE_LOW,
    supportedModes := [.AUTO, .PLAN_ONLY],
    rollback := .YES,
    risk := .LOW,
    limitations := ["Requires write access"] },
  { id := "github.security.apply_baseline",
    version := "1.0.0",
    authLevel := .WRITE_HIGH,
    supportedModes := [.AUTO, .PLAN_ONLY],
    rollback := .YES,
    risk := .MED,
    policyConstraints := ["Requires approval for MED+ risk"],
    limitations := ["Affects multiple repository settings"] },
  { id := "github.security.verify_baseline",
    version := "1.0.0",
    authLevel := .READ,
    supportedModes := [.AUTO, .PLAN_ONLY, .READ_ONLY],
    rollback := .NO,
    risk := .LOW,
    limitations := [] },
  { id := "github.security.rollback_baseline",
    version := "1.0.0",
    authLevel := .WRITE_HIGH,
    supportedModes := [.AUTO],
    rollback := .NO,
    risk := .HIGH,
    policyConstraints := ["Requires explicit approval"],
    limitations := ["May not restore all previous settings"] }
]

/-- getActions of github.ts: the full declared catalog. -/
def getActions : List ActionCapability := GITHUB_ACTIONS

/-- isDemoToken (github.ts lines 168-170): the empty string is falsy in
JavaScript, so a missing/empty token or a token with the demo prefix counts
as a demo credential. -/
def isDemoToken (accessToken : String) : Bool :=
  accessToken == "" || accessToken.startsWith "demo-"

/-- The DEMO_MODE branch of generateOAuthUrl (github.ts lines 112-115).
The non-demo branch builds the real provider authorize URL and is outside
every claim; demo mode is forced when client credentials are unconfigured. -/
def generateOAuthUrl (state : String) : String :=
  "/api/connections/github/demo-callback?state=" ++ state

/-- Credential material returned by exchangeCodeForToken. -/
structure TokenResult where
  accessToken : String
  refreshToken : Option String
  expiresAt : Option Nat
deriving DecidableEq, Repr

/-- The demo branch of exchangeCodeForToken (github.ts lines 131-137), taken
whenever DEMO_MODE is set or the sentinel code "demo" is supplied; Date.now()
is the explicit parameter nowMs. -/
def exchangeCodeForToken (nowMs : Nat) : TokenResult :=
  { accessToken := "demo-access-token-" ++ toString nowMs,
    refreshToken := none,
    expiresAt := some (nowMs + 3600 * 1000 * 24 * 30) }

/-- Any token carrying the demo- prefix is accepted by isDemoToken. -/
theorem isDemoToken_demo_append (s : String) : isDemoToken ("demo-" ++ s) = true := by
  unfold isDemoToken
  rw [startsWithAppend]
  simp

/-- The access token minted by the demo token exchange is a demo token. -/
theorem isDemoToken_exchange (nowMs : Nat) :
    isDemoToken (exchangeCodeForToken nowMs).accessToken = true := by
  show isDemoToken ("demo-access-token-" ++ toString nowMs) = true
  have h : ("demo-access-token-" ++ toString nowMs)
      = "demo-" ++ ("access-token-" ++ toString nowMs) := by
    rw [← String.append_assoc]
    rfl
  rw [h]
  exact isDemoToken_demo_append _

/-- The literal demo token used in concrete evaluations is a demo token. -/
theorem isDemoToken_demoTokenLit : isDemoToken "demo-token" = true := by
  have h : ("demo-token" : String) = "demo-" ++ "token" := by decide
  rw [h]
  exact isDemoToken_demo_append "token"

/- ===== Capability discovery (github.ts lines 172-248) ===== -/

/-- Metadata block of a CapabilityDiscoveryResult. -/
structure DiscoveryMetadata where
  login : String
  name : String
  avatarUrl : String
  grantedScopes : List String
  demoMode : Bool := false
deriving DecidableEq, Repr

/-- CapabilityDiscoveryResult of shared/types. -/
structure CapabilityDiscoveryResult where
  actions : List ActionCapability
  readableScopes : List String
  writableScopes : List String
  missingScopes : List String
  metadata : DiscoveryMetadata
deriving DecidableEq, Repr

/-- The fixed result discoverCapabilities returns for a demo token
(github.ts lines 175-189). -/
def demoDiscoveryResult : CapabilityDiscoveryResult :=
  { actions := GITHUB_ACTIONS,
    readableScopes := ["repos", "commits", "branches", "pull_requests",
      "organizations", "teams", "members"],
    writableScopes := ["repos", "branches", "settings", "webhooks"],
    missingScopes := [],
    metadata := {
      login := "demo-user",
      name := "Demo User",
      avatarUrl := "https://github.com/ghost.png",
      grantedScopes := ["repo", "read:org", "admin:repo_hook", "read:user"],
      demoMode := true } }

/-- The scope classification and action filter of the non-demo branch of
discoverCapabilities (github.ts lines 204-248), applied to the granted
scopes parsed from the x-oauth-scopes header and the fetched user fields. -/
def discoverFromScopes (granted : List String)
    (login name avatarUrl : String) : CapabilityDiscoveryResult :=
  let hasRepoScope := granted.contains "repo" || granted.contains "public_repo"
  let readableScopes :=
    (if hasRepoScope then ["repos", "commits", "branches", "pull_requests"] else [])
      ++ (if granted.contains "read:org" then ["organizations", "teams", "members"] else [])
  let writableScopes :=
    (if hasRepoScope then ["repos", "branches", "settings"] else [])
      ++ (if granted.contains "admin:repo_hook" then ["webhooks"] else [])
  let missingScopes :=
    (if hasRepoScope then [] else ["repo"])
      ++ (if granted.contains "read:org" then [] else ["read:org"])
  let availableActions := GITHUB_ACTIONS.filter (fun action =>
    match action.authLevel with
    | .READ => true
    | .WRITE_LOW => writableScopes.length > 0
    | .WRITE_HIGH => granted.contains "repo")
  { actions := availableActions,
    readableScopes := readableScopes,
    writableScopes := writableScopes,
    missingScopes := missingScopes,
    metadata := {
      login := login, name := name, avatarUrl := avatarUrl,
      grantedScopes := granted } }

/-- Parsing of the x-oauth-scopes response header
(github.ts lines 204-205): split on commas and trim. -/
def parseScopeHeader (header : String) : List String :=
  (header.splitOn ",").map (fun s => s.trim)

/-- The response of the GET api.github.com/user fetch performed by
discoverCapabilities: the ok flag, the user fields read from the JSON body
and the x-oauth-scopes header (defaulted to "" by the source). -/
structure UserFetch where
  ok : Bool
  login : String
  name : String
  avatarUrl : String
  scopeHeader : String
deriving DecidableEq, Repr

/-- discoverCapabilities (github.ts lines 172-248): a demo token returns the
fixed demo catalog; otherwise a failed user fetch throws, and a successful
one classifies the granted scopes and filters the catalog. -/
def discoverCapabilities (accessToken : String) (user : UserFetch) :
    Except String CapabilityDiscoveryResult :=
  if isDemoToken accessToken then
    .ok demoDiscoveryResult
  else if !user.ok then
    .error "Failed to fetch GitHub user info"
  else
    .ok (discoverFromScopes (parseScopeHeader user.scopeHeader)
      user.login user.name user.avatarUrl)

/- ===== Action execution (github.ts lines 254-763) ===== -/

/-- A JSON-like value, used for the untyped outputs, evidence, snapshots and
rollback parameters the connector handlers return. JavaScript member access
on a missing key yields undefined; both null and undefined are modelled by
the null constructor. -/
inductive JVal
  | null
  | bool (b : Bool)
  | num (n : Int)
  | str (s : String)
  | arr (items : List JVal)
  | obj (fields : List (String × JVal))

/-- Field access v.key (and the optional-chaining form), yielding null when
the key is absent or the value is not an object. -/
def JVal.get : JVal → String → JVal
  | .obj fields, key =>
    match fields.lookup key with
    | some v => v
    | none => .null
  | _, _ => .null

/-- Whether an object value carries the given key. -/
def JVal.hasKey : JVal → String → Bool
  | .obj fields, key => (fields.lookup key).isSome
  | _, _ => false

/-- A rollbackPlan entry of an ActionResult: target action id plus parameters. -/
structure RollbackPlanRec where
  action : String
  params : JVal

/-- ActionResult of shared/types, as produced by the handlers. -/
structure ActionResult where
  output : JVal
  evidence : JVal
  snapshot : Option JVal := none
  rollbackPlan : Option RollbackPlanRec := none
  executionMode : ExecutionMode

/-- The action input object: the owner/repo/branch/settings fields the
handlers read (absent fields default like undefined ones in the source). -/
structure ActionInput where
  owner : String := ""
  repo : String := ""
  branch : String := ""
  settings : Option JVal := none

/-- The spread of an owner/repo input into rollback parameters. -/
def ownerRepoJson (i : ActionInput) : JVal :=
  .obj [("owner", .str i.owner), ("repo", .str i.repo)]

/-- Errors thrown by executeAction and the handlers; message reproduces the
thrown Error text. -/
inductive ExecError
  | unknownAction (actionId : String)
  | fetchFailed (text : String)
  | notImplemented (text : String)

/-- The message carried by a thrown execution error. -/
def ExecError.message : ExecError → String
  | .unknownAction actionId => "Unknown action: " ++ actionId
  | .fetchFailed text => text
  | .notImplemented text => text

/-- One fetch response, as observed by a handler: the ok flag, the HTTP
status, statusText and parsed JSON body. -/
structure FetchResp where
  ok : Bool
  status : Nat
  statusText : String
  body : JVal := .null

/-- The provider-side environment of one executeAction call: the responses
the GitHub API would give to each fetch the handlers can make, plus the
wall clock (Date.now as nowMs, new Date().toISOString() as nowIso). -/
structure ProviderEnv where
  user : UserFetch
  repoResp : FetchResp
  branchProtGetResp : FetchResp
  branchProtPutResp : FetchResp
  vulnAlertsPutResp : FetchResp
  autoFixPutResp : FetchResp
  nowIso : String
  nowMs : Nat

/-- getRepoSettingsMock (github.ts lines 258-283). -/
def getRepoSettingsMock (i : ActionInput) (nowIso : String) : ActionResult :=
  { output := .obj [
      ("private", .bool false),
      ("hasIssues", .bool true),
      ("hasProjects", .bool true),
      ("hasWiki", .bool true),
      ("hasDownloads", .bool true),
      ("allowSquashMerge", .bool true),
      ("allowMergeCommit", .bool true),
      ("allowRebaseMerge", .bool true),
      ("deleteBranchOnMerge", .bool true),
      ("defaultBranch", .str "main"),
      ("visibility", .str "public")],
    evidence := .obj [
      ("fetchedAt", .str nowIso),
      ("repoFullName", .str (i.owner ++ "/" ++ i.repo)),
      ("demoMode", .bool true)],
    executionMode := .READ_ONLY }

/-- getBranchProtectionMock (github.ts lines 285-306). -/
def getBranchProtectionMock (nowIso : String) : ActionResult :=
  { output := .obj [
      ("protected", .bool false),
      ("requiredStatusChecks", .null),
      ("enforceAdmins", .bool false),
      ("requiredPullRequestReviews", .null),
      ("restrictions", .null),
      ("requiredLinearHistory", .bool false),
      ("allowForcePushes", .bool true),
      ("allowDeletions", .bool true)],
    evidence := .obj [("fetchedAt", .str nowIso), ("demoMode", .bool true)],
    executionMode := .READ_ONLY }

/-- The currentState constant of setBranchProtectionMock (github.ts 314-319). -/
def bpCurrentState : JVal :=
  .obj [
    ("protected", .bool false),
    ("requiredStatusChecks", .null),
    ("enforceAdmins", .bool false),
    ("requiredPullRequestReviews", .null)]

/-- The newSettings constant of setBranchProtectionMock (github.ts 321-332). -/
def bpNewSettingsFields : List (String × JVal) := [
  ("required_status_checks", .obj [
    ("strict", .bool true), ("contexts", .arr [.str "ci/build"])]),
  ("enforce_admins", .bool true),
  ("required_pull_request_reviews", .obj [
    ("required_approving_review_count", .num 1),
    ("dismiss_stale_reviews", .bool true)]),
  ("restrictions", .null),
  ("required_linear_history", .bool false),
  ("allow_force_pushes", .bool false),
  ("allow_deletions", .bool false)]

/-- setBranchProtectionMock (github.ts lines 308-360). -/
def setBranchProtectionMock (i : ActionInput) (dryRun : Bool) (nowIso : String) :
    ActionResult :=
  if dryRun then
    { output := .obj [("wouldApply", .obj bpNewSettingsFields)],
      evidence := .obj [("dryRun", .bool true), ("currentState", bpCurrentState)],
      snapshot := some bpCurrentState,
      executionMode := .PLAN_ONLY }
  else
    { output := .obj (("protected", .bool true) :: bpNewSettingsFields),
      evidence := .obj [
        ("appliedAt", .str nowIso),
        ("previousState", bpCurrentState),
        ("demoMode", .bool true)],
      snapshot := some bpCurrentState,
      rollbackPlan := some {
        action := "github.repo.set_branch_protection",
        params := .obj [
          ("owner", .str i.owner), ("repo", .str i.repo), ("branch", .str i.branch),
          ("settings", bpCurrentState)] },
      executionMode := .AUTO }

/-- enableVulnerabilityAlertsMock (github.ts lines 362-388). -/
def enableVulnerabilityAlertsMock (i : ActionInput) (dryRun : Bool)
    (nowIso : String) : ActionResult :=
  if dryRun then
    { output := .obj [("wouldEnable", .bool true), ("feature", .str "vulnerability_alerts")],
      evidence := .obj [("dryRun", .bool true)],
      executionMode := .PLAN_ONLY }
  else
    { output := .obj [("enabled", .bool true), ("feature", .str "vulnerability_alerts")],
      evidence := .obj [("enabledAt", .str nowIso), ("demoMode", .bool true)],
      rollbackPlan := some {
        action := "github.repo.disable_vulnerability_alerts",
        params := ownerRepoJson i },
      executionMode := .AUTO }

/-- enableAutomatedSecurityFixesMock (github.ts lines 390-416). -/
def enableAutomatedSecurityFixesMock (i : ActionInput) (dryRun : Bool)
    (nowIso : String) : ActionResult :=
  if dryRun then
    { output := .obj [("wouldEnable", .bool true), ("feature", .str "automated_security_fixes")],
      evidence := .obj [("dryRun", .bool true)],
      executionMode := .PLAN_ONLY }
  else
    { output := .obj [("enabled", .bool true), ("feature", .str "automated_security_fixes")],
      evidence := .obj [("enabledAt", .str nowIso), ("demoMode", .bool true)],
      rollbackPlan := some {
        action := "github.repo.disable_automated_security_fixes",
        params := ownerRepoJson i },
      executionMode := .AUTO }

/-- The changes list of applySecurityBaselineMock (github.ts 424-429). -/
def baselineChanges : JVal :=
  .arr [
    .obj [("setting", .str "branch_protection"), ("status", .str "enabled")],
    .obj [("setting", .str "vulnerability_alerts"), ("status", .str "enabled")],
    .obj [("setting", .str "automated_security_fixes"), ("status", .str "enabled")],
    .obj [("setting", .str "secret_scanning"), ("status", .str "enabled")]]

/-- applySecurityBaselineMock (github.ts lines 418-455). -/
def applySecurityBaselineMock (i : ActionInput) (dryRun : Bool)
    (nowIso : String) : ActionResult :=
  if dryRun then
    { output := .obj [("wouldApply", baselineChanges)],
      evidence := .obj [("dryRun", .bool true)],
      executionMode := .PLAN_ONLY }
  else
    { output := .obj [
        ("applied", .bool true),
        ("changes", baselineChanges),
        ("summary", .str "Security baseline applied successfully")],
      evidence := .obj [("appliedAt", .str nowIso), ("demoMode", .bool true)],
      rollbackPlan := some {
        action := "github.security.rollback_baseline",
        params := ownerRepoJson i },
      executionMode := .AUTO }

/-- getRepoSettings (github.ts lines 457-501): demo tokens use the mock;
otherwise the repo fetch either fails or its body is mapped field by field. -/
def getRepoSettings (env : ProviderEnv) (accessToken : String) (i : ActionInput) :
    Except ExecError ActionResult :=
  if isDemoToken accessToken then
    .ok (getRepoSettingsMock i env.nowIso)
  else if !env.repoResp.ok then
    .error (.fetchFailed ("Failed to fetch repo settings: " ++ env.repoResp.statusText))
  else
    let repoData := env.repoResp.body
    .ok {
      output := .obj [
        ("private", repoData.get "private"),
        ("hasIssues", repoData.get "has_issues"),
        ("hasProjects", repoData.get "has_projects"),
        ("hasWiki", repoData.get "has_wiki"),
        ("hasDownloads", repoData.get "has_downloads"),
        ("allowSquashMerge", repoData.get "allow_squash_merge"),
        ("allowMergeCommit", repoData.get "allow_merge_commit"),
        ("allowRebaseMerge", repoData.get "allow_rebase_merge"),
        ("deleteBranchOnMerge", repoData.get "delete_branch_on_merge"),
        ("defaultBranch", repoData.get "default_branch"),
        ("visibility", repoData.get "visibility")],
      evidence := .obj [
        ("fetchedAt", .str env.nowIso),
        ("repoFullName", repoData.get "full_name")],
      executionMode := .READ_ONLY }

/-- getBranchProtection (github.ts lines 503-551): a 404 means the branch is
unprotected; any other failure throws; otherwise the protection body is
mapped (optional chaining on the enabled sub-fields). -/
def getBranchProtection (env : ProviderEnv) (accessToken : String) (i : ActionInput) :
    Except ExecError ActionResult :=
  if isDemoToken accessToken then
    .ok (getBranchProtectionMock env.nowIso)
  else if env.branchProtGetResp.status == 404 then
    .ok {
      output := .obj [("protected", .bool false)],
      evidence := .obj [("fetchedAt", .str env.nowIso)],
      executionMode := .READ_ONLY }
  else if !env.branchProtGetResp.ok then
    .error (.fetchFailed
      ("Failed to fetch branch protection: " ++ env.branchProtGetResp.statusText))
  else
    let protection := env.branchProtGetResp.body
    .ok {
      output := .obj [
        ("protected", .bool true),
        ("requiredStatusChecks", protection.get "required_status_checks"),
        ("enforceAdmins", (protection.get "enforce_admins").get "enabled"),
        ("requiredPullRequestReviews", protection.get "required_pull_request_reviews"),
        ("restrictions", protection.get "restrictions"),
        ("requiredLinearHistory", (protection.get "required_linear_history").get "enabled"),
        ("allowForcePushes", (protection.get "allow_force_pushes").get "enabled"),
        ("allowDeletions", (protection.get "allow_deletions").get "enabled")],
      evidence := .obj [("fetchedAt", .str env.nowIso)],
      executionMode := .READ_ONLY }

/-- setBranchProtection (github.ts lines 553-624): demo tokens use the mock;
otherwise the current protection state is fetched first, a dry run previews
the requested settings over that snapshot, and a real run PUTs the settings
(the request body is provider I/O, not observable in the result) and records
the previous state as snapshot and rollback parameters. -/
def setBranchProtection (env : ProviderEnv) (accessToken : String) (i : ActionInput)
    (dryRun : Bool) : Except ExecError ActionResult :=
  if isDemoToken accessToken then
    .ok (setBranchProtectionMock i dryRun env.nowIso)
  else
    match getBranchProtection env accessToken
      { owner := i.owner, repo := i.repo, branch := i.branch } with
    | .error e => .error e
    | .ok currentState =>
      if dryRun then
        .ok {
          output := .obj [("wouldApply", (i.settings).getD .null)],
          evidence := .obj [("dryRun", .bool true), ("currentState", currentState.output)],
          snapshot := some currentState.output,
          executionMode := .PLAN_ONLY }
      else if !env.branchProtPutResp.ok then
        .error (.fetchFailed
          ("Failed to set branch protection: " ++ env.branchProtPutResp.statusText))
      else
        .ok {
          output := env.branchProtPutResp.body,
          evidence := .obj [
            ("appliedAt", .str env.nowIso),
            ("previousState", currentState.output)],
          snapshot := some currentState.output,
          rollbackPlan := some {
            action := "github.repo.set_branch_protection",
            params := .obj [
              ("owner", .str i.owner), ("repo", .str i.repo), ("branch", .str i.branch),
              ("settings", currentState.output)] },
          executionMode := .AUTO }

/-- enableVulnerabilityAlerts (github.ts lines 626-667). -/
def enableVulnerabilityAlerts (env : ProviderEnv) (accessToken : String)
    (i : ActionInput) (dryRun : Bool) : Except ExecError ActionResult :=
  if isDemoToken accessToken then
    .ok (enableVulnerabilityAlertsMock i dryRun env.nowIso)
  else if dryRun then
    .ok {
      output := .obj [("wouldEnable", .bool true)],
      evidence := .obj [("dryRun", .bool true)],
      executionMode := .PLAN_ONLY }
  else if !env.vulnAlertsPutResp.ok && env.vulnAlertsPutResp.status != 204 then
    .error (.fetchFailed
      ("Failed to enable vulnerability alerts: " ++ env.vulnAlertsPutResp.statusText))
  else
    .ok {
      output := .obj [("enabled", .bool true)],
      evidence := .obj [("enabledAt", .str env.nowIso)],
      rollbackPlan := some {
        action := "github.repo.disable_vulnerability_alerts",
        params := ownerRepoJson i },
      executionMode := .AUTO }

/-- enableAutomatedSecurityFixes (github.ts lines 669-712). -/
def enableAutomatedSecurityFixes (env : ProviderEnv) (accessToken : String)
    (i : ActionInput) (dryRun : Bool) : Except ExecError ActionResult :=
  if isDemoToken accessToken then
    .ok (enableAutomatedSecurityFixesMock i dryRun env.nowIso)
  else if dryRun then
    .ok {
      output := .obj [("wouldEnable", .bool true)],
      evidence := .obj [("dryRun", .bool true)],
      executionMode := .PLAN_ONLY }
  else if !env.autoFixPutResp.ok && env.autoFixPutResp.status != 204 then
    .error (.fetchFailed
      ("Failed to enable automated security fixes: " ++ env.autoFixPutResp.statusText))
  else
    .ok {
      output := .obj [("enabled", .bool true)],
      evidence := .obj [("enabledAt", .str env.nowIso)],
      rollbackPlan := some {
        action := "github.repo.disable_automated_security_fixes",
        params := ownerRepoJson i },
      executionMode := .AUTO }

/-- The demo result of the verify_baseline case of executeAction
(github.ts lines 742-757). -/
def verifyBaselineDemoResult (nowIso : String) : ActionResult :=
  { output := .obj [
      ("compliant", .bool true),
      ("checks", .arr [
        .obj [("name", .str "branch_protection"), ("status", .str "pass")],
        .obj [("name", .str "vulnerability_alerts"), ("status", .str "pass")],
        .obj [("name", .str "automated_security_fixes"), ("status", .str "pass")]])],
    evidence := .obj [("verifiedAt", .str nowIso), ("demoMode", .bool true)],
    executionMode := .READ_ONLY }

/-- executeAction (github.ts lines 714-763): a switch on the action id; any
id outside the seven dispatched cases throws an unknown-action error. No
branch consults supportedModes. -/
def executeAction (env : ProviderEnv) (actionId : String) (accessToken : String)
    (i : ActionInput) (dryRun : Bool) : Except ExecError ActionResult :=
  if actionId == "github.repo.get_settings" then
    getRepoSettings env accessToken i
  else if actionId == "github.repo.get_branch_protection" then
    getBranchProtection env accessToken i
  else if actionId == "github.repo.set_branch_protection" then
    setBranchProtection env accessToken i dryRun
  else if actionId == "github.repo.enable_vulnerability_alerts" then
    enableVulnerabilityAlerts env accessToken i dryRun
  else if actionId == "github.repo.enable_automated_security_fixes" then
    enableAutomatedSecurityFixes env accessToken i dryRun
  else if actionId == "github.security.apply_baseline" then
    if isDemoToken accessToken then
      .ok (applySecurityBaselineMock i dryRun env.nowIso)
    else
      .error (.notImplemented "Security baseline requires full implementation")
  else if actionId == "github.security.verify_baseline" then
    if isDemoToken accessToken then
      .ok (verifyBaselineDemoResult env.nowIso)
    else
      .error (.notImplemented "Security baseline verification requires full implementation")
  else
    .error (.unknownAction actionId)

/-- The seven action ids the executeAction switch dispatches. -/
def dispatchedIds : List String := [
  "github.repo.get_settings",
  "github.repo.get_branch_protection",
  "github.repo.set_branch_protection",
  "github.repo.enable_vulnerability_alerts",
  "github.repo.enable_automated_security_fixes",
  "github.security.apply_baseline",
  "github.security.verify_baseline"]

/- ===== Executor (spec-modelled) ===== -/

/-- One step of a Plan: an action id plus its input. -/
structure PlanStep where
  actionId : String
  input : ActionInput

/-- Lifecycle states of a Run. -/
inductive RunStatus
  | PENDING
  | RUNNING
  | SUCCEEDED
  | FAILED
  | ROLLED_BACK
deriving DecidableEq, Repr

/-- One entry of a Run's stepResults: the recorded outcome of an attempted
step. -/
inductive StepResult
  | success (actionId : String) (result : ActionResult)
  | failure (actionId : String) (message : String)

/-- The outcome executePlan returns. -/
structure RunResult where
  success : Bool
  status : RunStatus
  stepResults : List StepResult
  error : Option String

/-- Modelled from the spec: the step loop of the Executor's executePlan
(src/server/services/executor.ts is not in the repository snapshot).
Following section 4.4 steps 2-4, steps run strictly in declared order; each
attempted step's outcome is recorded; the first failure stops the iteration,
and its message becomes the run error. The connector call is the exec
parameter. -/
def execSteps (exec : PlanStep → Except ExecError ActionResult) :
    List PlanStep → List StepResult × Option String
  | [] => ([], none)
  | step :: rest =>
    match exec step with
    | .ok r =>
      let (results, err) := execSteps exec rest
      (.success step.actionId r :: results, err)
    | .error e => ([.failure step.actionId e.message], some e.message)

/-- Modelled from the spec: executePlan (section 4.4 steps 2-5; the executor
source is not in the repository snapshot). A failed step marks the Run
FAILED with the failure's message while preserving the step results
collected so far; otherwise the Run is SUCCEEDED. -/
def executePlan (exec : PlanStep → Except ExecError ActionResult)
    (steps : List PlanStep) : RunResult :=
  let (results, err) := execSteps exec steps
  match err with
  | some m => { success := false, status := .FAILED, stepResults := results, error := some m }
  | none => { success := true, status := .SUCCEEDED, stepResults := results, error := none }

/- ===== Planner risk aggregation (spec-modelled) ===== -/

/-- Numeric ordering of risk levels (LOW < MED < HIGH). -/
def riskValue : RiskLevel → Nat
  | .LOW => 0
  | .MED => 1
  | .HIGH => 2

/-- The larger of two risk levels. -/
def riskMax (a b : RiskLevel) : RiskLevel :=
  if riskValue a ≤ riskValue b then b else a

/-- Resolution of a step's action id to its declared capability in the
GitHub catalog. -/
def resolveCapability (actionId : String) : Option ActionCapability :=
  GITHUB_ACTIONS.find? (fun a => a.id == actionId)

/-- Modelled from the spec: the riskLevel computation of the Planner's
generatePlan (src/server/services/planner.ts is not in the repository
snapshot). Per sections 3 and 4.3 the plan's riskLevel is the maximum risk
across the selected steps' resolved ActionCapability, accumulated from LOW. -/
def planRiskLevel (actionIds : List String) : RiskLevel :=
  (actionIds.filterMap resolveCapability).foldl (fun acc c => riskMax acc c.risk) .LOW

/- ===== Route layer (src/server/routes.ts) ===== -/

/-- A stored Connection record (the fields the modelled routes touch). -/
structure StoredConnection where
  id : String
  tenantId : String
  userId : String
  provider : String
  accountId : Option String := none
  accountName : Option String := none
  authLevel : AuthLevel
  scopes : List String
  status : String
  accessToken : Option String := none
  refreshToken : Option String := none
  tokenExpiresAt : Option Nat := none
  lastDiscoveredAt : Option Nat := none
deriving DecidableEq, Repr

/-- A stored CapabilityProfile record. -/
structure CapabilityProfile where
  connectionId : String
  actions : List ActionCapability
  readableCapabilities : List String
  writeCapabilities : List String
  limitations : List String
deriving DecidableEq, Repr

/-- A stored Run record (the fields the rollback route consults). -/
structure StoredRun where
  id : String
  planId : String
  dryRun : Bool
  success : Bool
deriving DecidableEq, Repr

/-- A stored Plan record (the fields the plan routes consult). -/
structure StoredPlan where
  id : String
  connectionId : Option String
  riskLevel : RiskLevel
  status : String
deriving DecidableEq, Repr

/-- The persistence collaborator consumed by the routes, with a fresh-id
counter standing in for uuid generation. -/
structure Store where
  connections : List StoredConnection := []
  profiles : List CapabilityProfile := []
  plans : List StoredPlan := []
  runs : List StoredRun := []
  auditEvents : List (String × String) := []
  nextId : Nat := 0
deriving DecidableEq, Repr

/-- storage.getConnection. -/
def Store.getConnection (st : Store) (id : String) : Option StoredConnection :=
  st.connections.find? (fun c => c.id == id)

/-- storage.getRun. -/
def Store.getRun (st : Store) (id : String) : Option StoredRun :=
  st.runs.find? (fun r => r.id == id)

/-- storage.getPlan. -/
def Store.getPlan (st : Store) (id : String) : Option StoredPlan :=
  st.plans.find? (fun p => p.id == id)

/-- storage.getCapabilityProfile, keyed by connection id. -/
def Store.getCapabilityProfile (st : Store) (id : String) : Option CapabilityProfile :=
  st.profiles.find? (fun p => p.connectionId == id)

/-- storage.updateConnection: merge an update into the matching record. -/
def Store.updateConnection (st : Store) (id : String)
    (f : StoredConnection → StoredConnection) : Store :=
  { st with connections := st.connections.map (fun c => if c.id == id then f c else c) }

/-- Modelled from the spec: the Connector Registry
(src/server/connectors/index.ts is not in the repository snapshot). Per
sections 2 and 4.2 it maps a case-sensitive provider id to its connector;
the GitHub connector is the one provider wired in. -/
def knownProvider (provider : String) : Bool :=
  provider == "github"

/-- The wrapped response envelope of the routes: HTTP status, success flag
and the error message of sendError (routes.ts lines 22-38). -/
structure RouteResp where
  status : Nat
  success : Bool
  error : Option String := none
deriving DecidableEq, Repr

/-- GET /api/runs/:id (routes.ts lines 426-438). -/
def getRunRoute (st : Store) (id : String) : RouteResp :=
  match st.getRun id with
  | none => { status := 404, success := false, error := some "Run not found" }
  | some _ => { status := 200, success := true }

/-- GET /api/plans/:id (routes.ts lines 349-361). -/
def getPlanRoute (st : Store) (id : String) : RouteResp :=
  match st.getPlan id with
  | none => { status := 404, success := false, error := some "Plan not found" }
  | some _ => { status := 200, success := true }

/-- GET /api/connections/:id/capabilities (routes.ts lines 233-245). -/
def getCapabilitiesRoute (st : Store) (id : String) : RouteResp :=
  match st.getCapabilityProfile id with
  | none => { status := 404, success := false, error := some "Capability profile not found" }
  | some _ => { status := 200, success := true }

/-- POST /api/connections/:provider/start (routes.ts lines 74-93): only the
provider lookup can fail. -/
def startRoute (provider : String) : RouteResp :=
  if knownProvider provider then { status := 200, success := true }
  else { status := 404, success := false, error := some ("Unknown provider: " ++ provider) }

/-- POST /api/runs/:id/rollback (routes.ts lines 440-453). The route wraps
executor.executeRollback in a try/catch and maps every thrown error to a 400
response. Modelled from the spec for the executor side (the executor source
is not in the repository snapshot): per section 4.4, executeRollback throws
a run-not-found error for an absent run id and a not-rollbackable error when
the run is not a successful real execution. -/
def rollbackRoute (st : Store) (id : String) : RouteResp :=
  match st.getRun id with
  | none => { status := 400, success := false, error := some "Run not found" }
  | some run =>
    if run.success && !run.dryRun then { status := 200, success := true }
    else { status := 400, success := false, error := some "Run is not rollbackable" }

/-- POST /api/connections/:provider/discover (routes.ts lines 192-231):
look up the connection, then the provider; discover capabilities with the
stored token defaulted to "", snapshot a fresh profile, and refresh the
connection's lastDiscoveredAt and authLevel (WRITE_LOW exactly when some
writable scope was discovered, READ otherwise). -/
def discoverRoute (env : ProviderEnv) (st : Store) (provider connectionId : String) :
    RouteResp × Store :=
  match st.getConnection connectionId with
  | none => ({ status := 404, success := false, error := some "Connection not found" }, st)
  | some conn =>
    if !(knownProvider provider) then
      ({ status := 404, success := false, error := some ("Unknown provider: " ++ provider) }, st)
    else
      match discoverCapabilities ((conn.accessToken).getD "") env.user with
      | .error e => ({ status := 400, success := false, error := some e }, st)
      | .ok capabilities =>
        let profile : CapabilityProfile := {
          connectionId := conn.id,
          actions := capabilities.actions,
          readableCapabilities := capabilities.readableScopes,
          writeCapabilities := capabilities.writableScopes,
          limitations := capabilities.missingScopes }
        let st1 := { st with profiles := profile :: st.profiles, nextId := st.nextId + 1 }
        let st2 := st1.updateConnection conn.id (fun c =>
          { c with
            lastDiscoveredAt := some env.nowMs,
            authLevel := if capabilities.writableScopes.length > 0 then .WRITE_LOW else .READ })
        ({ status := 200, success := true }, st2)

/-- The demo tenant id constant of routes.ts. -/
def DEMO_TENANT_ID : String := "00000000-0000-0000-0000-000000000001"

/-- POST /api/connections/:provider/connect (routes.ts lines 129-190): the
demo bootstrap. Exchanges the sentinel code "demo", creates an ACTIVE
connection at authLevel WRITE_HIGH with the full demo scope list, discovers
capabilities with the fresh token, snapshots a profile, stamps
lastDiscoveredAt and records an audit event. -/
def connectRoute (env : ProviderEnv) (st : Store) (provider userId : String) :
    RouteResp × Store :=
  if !(knownProvider provider) then
    ({ status := 404, success := false, error := some ("Unknown provider: " ++ provider) }, st)
  else
    let tokens := exchangeCodeForToken env.nowMs
    let conn : StoredConnection := {
      id := "conn-" ++ toString st.nextId,
      tenantId := DEMO_TENANT_ID,
      userId := userId,
      provider := provider,
      accountId := some "demo-account",
      accountName := some "Demo GitHub Account",
      authLevel := .WRITE_HIGH,
      scopes := ["repo", "read:org", "admin:repo_hook", "read:user"],
      status := "ACTIVE",
      accessToken := some tokens.accessToken,
      refreshToken := tokens.refreshToken,
      tokenExpiresAt := tokens.expiresAt }
    let st1 := { st with connections := conn :: st.connections, nextId := st.nextId + 1 }
    match discoverCapabilities tokens.accessToken env.user with
    | .error e => ({ status := 400, success := false, error := some e }, st1)
    | .ok capabilities =>
      let profile : CapabilityProfile := {
        connectionId := conn.id,
        actions := capabilities.actions,
        readableCapabilities := capabilities.readableScopes,
        writeCapabilities := capabilities.writableScopes,
        limitations := capabilities.missingScopes }
      let st2 := { st1 with profiles := profile :: st1.profiles }
      let st3 := st2.updateConnection conn.id (fun c =>
        { c with lastDiscoveredAt := some env.nowMs })
      let st4 := { st3 with
        auditEvents := ("connection.create", "connection:" ++ conn.id) :: st3.auditEvents }
      ({ status := 201, success := true }, st4)

/- ===== Theorems ===== -/

/-- C1: for every non-demo credential, discoverCapabilities returns only
scope-sufficient actions: a READ-level action is always included, a
WRITE_LOW action only when at least one writable scope was granted, and a
WRITE_HIGH action only when the granted scopes include the high-trust repo
scope; in particular, for a credential granting only read:org the returned
actions exclude github.repo.set_branch_protection and the missing scopes
include repo. -/
theorem C1_discover_scope_sufficiency (granted : List String)
    (login name avatarUrl : String) :
    (∀ a ∈ (discoverFromScopes granted login name avatarUrl).actions,
        a.authLevel = .READ
        ∨ (a.authLevel = .WRITE_LOW
            ∧ (discoverFromScopes granted login name avatarUrl).writableScopes ≠ [])
        ∨ (a.authLevel = .WRITE_HIGH ∧ "repo" ∈ granted))
    ∧ (∀ a ∈ GITHUB_ACTIONS, a.authLevel = .READ →
        a ∈ (discoverFromScopes granted login name avatarUrl).actions)
    ∧ (∀ a ∈ (discoverFromScopes ["read:org"] "demo-user" "Demo User" "x").actions,
        a.id ≠ "github.repo.set_branch_protection")
    ∧ "repo" ∈ (discoverFromScopes ["read:org"] "demo-user" "Demo User" "x").missingScopes := by
  refine ⟨?_, ?_, by decide, by decide⟩
  · intro a ha
    simp only [discoverFromScopes, List.mem_filter] at ha
    obtain ⟨-, hp⟩ := ha
    cases h : a.authLevel with
    | READ => exact Or.inl rfl
    | WRITE_LOW =>
      refine Or.inr (Or.inl ⟨rfl, ?_⟩)
      rw [h] at hp
      simp only [discoverFromScopes, decide_eq_true_eq] at hp ⊢
      exact List.ne_nil_of_length_pos hp
    | WRITE_HIGH =>
      refine Or.inr (Or.inr ⟨rfl, ?_⟩)
      rw [h] at hp
      simpa using hp
  · intro a ha hread
    simp only [discoverFromScopes, List.mem_filter]
    exact ⟨ha, by rw [hread]⟩

/-- Witness for C1 at the concrete read:org-only credential and the first
(READ-level) catalog action. -/
theorem C1_discover_scope_sufficiency_witness :
    (GITHUB_ACTIONS.get ⟨0, by decide⟩)
        ∈ (discoverFromScopes ["read:org"] "demo-user" "Demo User" "x").actions
    ∧ ((GITHUB_ACTIONS.get ⟨0, by decide⟩).authLevel = .READ
        ∨ ((GITHUB_ACTIONS.get ⟨0, by decide⟩).authLevel = .WRITE_LOW
            ∧ (discoverFromScopes ["read:org"] "demo-user" "Demo User" "x").writableScopes ≠ [])
        ∨ ((GITHUB_ACTIONS.get ⟨0, by decide⟩).authLevel = .WRITE_HIGH
            ∧ "repo" ∈ (["read:org"] : List String))) :=
  ⟨by decide,
    (C1_discover_scope_sufficiency ["read:org"] "demo-user" "Demo User" "x").1
      (GITHUB_ACTIONS.get ⟨0, by decide⟩) (by decide)⟩

/-- C6: in demo mode generateOAuthUrl returns the demo callback URL for
every state, and exchangeCodeForToken with the sentinel code returns a
credential whose expiry is defined and strictly in the future and whose
access token carries the demo- prefix, so isDemoToken accepts it. -/
theorem C6_demo_roundtrip (state : String) (nowMs : Nat) :
    generateOAuthUrl state = "/api/connections/github/demo-callback?state=" ++ state
    ∧ (exchangeCodeForToken nowMs).expiresAt = some (nowMs + 3600 * 1000 * 24 * 30)
    ∧ (∀ t ∈ (exchangeCodeForToken nowMs).expiresAt, nowMs < t)
    ∧ (exchangeCodeForToken nowMs).accessToken.startsWith "demo-" = true
    ∧ isDemoToken (exchangeCodeForToken nowMs).accessToken = true := by
  have hsw : (exchangeCodeForToken nowMs).accessToken.startsWith "demo-" = true := by
    show ("demo-access-token-" ++ toString nowMs).startsWith "demo-" = true
    have h : ("demo-access-token-" ++ toString nowMs)
        = "demo-" ++ ("access-token-" ++ toString nowMs) := by
      rw [← String.append_assoc]
      rfl
    rw [h]
    exact startsWithAppend "demo-" ("access-token-" ++ toString nowMs)
  refine ⟨rfl, rfl, ?_, hsw, ?_⟩
  · intro t ht
    simp only [exchangeCodeForToken, Option.mem_def, Option.some.injEq] at ht
    omega
  · simp only [isDemoToken, hsw, Bool.or_true]

/-- Witness for C6 at a concrete expiry timestamp. -/
theorem C6_demo_roundtrip_witness :
    (1700000000000 + 3600 * 1000 * 24 * 30)
        ∈ (exchangeCodeForToken 1700000000000).expiresAt
    ∧ 1700000000000 < 1700000000000 + 3600 * 1000 * 24 * 30 :=
  ⟨by decide,
    (C6_demo_roundtrip "s" 1700000000000).2.2.1 _ (by decide)⟩

/-- A concrete provider environment used for concrete evaluations. -/
def testEnv : ProviderEnv :=
  { user := { ok := true, login := "demo-user", name := "Demo User",
              avatarUrl := "https://github.com/ghost.png", scopeHeader := "" },
    repoResp := { ok := true, status := 200, statusText := "OK" },
    branchProtGetResp := { ok := true, status := 200, statusText := "OK" },
    branchProtPutResp := { ok := true, status := 200, statusText := "OK" },
    vulnAlertsPutResp := { ok := true, status := 204, statusText := "No Content" },
    autoFixPutResp := { ok := true, status := 204, statusText := "No Content" },
    nowIso := "2026-01-01T00:00:00.000Z",
    nowMs := 1700000000000 }

/-- The dispatched handlers never produce the unknown-action error:
getRepoSettings. -/
theorem getRepoSettings_no_unknown (env : ProviderEnv) (tok : String)
    (i : ActionInput) (s : String) :
    getRepoSettings env tok i ≠ .error (.unknownAction s) := by
  unfold getRepoSettings
  split
  · simp
  · split <;> simp

/-- The dispatched handlers never produce the unknown-action error:
getBranchProtection. -/
theorem getBranchProtection_no_unknown (env : ProviderEnv) (tok : String)
    (i : ActionInput) (s : String) :
    getBranchProtection env tok i ≠ .error (.unknownAction s) := by
  unfold getBranchProtection
  split
  · simp
  · split
    · simp
    · split <;> simp

/-- The dispatched handlers never produce the unknown-action error:
setBranchProtection. -/
theorem setBranchProtection_no_unknown (env : ProviderEnv) (tok : String)
    (i : ActionInput) (dryRun : Bool) (s : String) :
    setBranchProtection env tok i dryRun ≠ .error (.unknownAction s) := by
  unfold setBranchProtection
  split
  · simp
  · split
    · rename_i e heq
      intro hcontra
      injection hcontra with h
      rw [h] at heq
      exact getBranchProtection_no_unknown env tok _ s heq
    · split
      · simp
      · split <;> simp

/-- The dispatched handlers never produce the unknown-action error:
enableVulnerabilityAlerts. -/
theorem enableVulnerabilityAlerts_no_unknown (env : ProviderEnv) (tok : String)
    (i : ActionInput) (dryRun : Bool) (s : String) :
    enableVulnerabilityAlerts env tok i dryRun ≠ .error (.unknownAction s) := by
  unfold enableVulnerabilityAlerts
  split
  · simp
  · split
    · simp
    · split <;> simp

/-- The dispatched handlers never produce the unknown-action error:
enableAutomatedSecurityFixes. -/
theorem enableAutomatedSecurityFixes_no_unknown (env : ProviderEnv) (tok : String)
    (i : ActionInput) (dryRun : Bool) (s : String) :
    enableAutomatedSecurityFixes env tok i dryRun ≠ .error (.unknownAction s) := by
  unfold enableAutomatedSecurityFixes
  split
  · simp
  · split
    · simp
    · split <;> simp

/-- C2 (amended): executeAction fails with the unknown-action error exactly
when the action id is outside the seven dispatched ids; those are the
declared catalog minus github.security.rollback_baseline, so that declared
action is rejected as unknown, and no supported-modes check exists. -/
theorem C2_unknown_action_dispatch (env : ProviderEnv) (actionId tok : String)
    (i : ActionInput) (dryRun : Bool) :
    (executeAction env actionId tok i dryRun = .error (.unknownAction actionId)
      ↔ actionId ∉ dispatchedIds)
    ∧ dispatchedIds = (getActions.map (fun a => a.id)).filter
        (fun s => s ≠ "github.security.rollback_baseline")
    ∧ "github.security.rollback_baseline" ∈ getActions.map (fun a => a.id) := by
  refine ⟨⟨?_, ?_⟩, by decide, by decide⟩
  · intro heq hmem
    simp only [dispatchedIds, List.mem_cons, List.not_mem_nil, or_false] at hmem
    rcases hmem with rfl | rfl | rfl | rfl | rfl | rfl | rfl
    · exact getRepoSettings_no_unknown env tok i _ heq
    · exact getBranchProtection_no_unknown env tok i _ heq
    · exact setBranchProtection_no_unknown env tok i dryRun _ heq
    · exact enableVulnerabilityAlerts_no_unknown env tok i dryRun _ heq
    · exact enableAutomatedSecurityFixes_no_unknown env tok i dryRun _ heq
    · revert heq
      show (if isDemoToken tok = true
          then (Except.ok (applySecurityBaselineMock i dryRun env.nowIso) :
            Except ExecError ActionResult)
          else .error (.notImplemented "Security baseline requires full implementation"))
        ≠ .error (.unknownAction "github.security.apply_baseline")
      split <;> simp
    · revert heq
      show (if isDemoToken tok = true
          then (Except.ok (verifyBaselineDemoResult env.nowIso) :
            Except ExecError ActionResult)
          else .error (.notImplemented
            "Security baseline verification requires full implementation"))
        ≠ .error (.unknownAction "github.security.verify_baseline")
      split <;> simp
  · intro hnot
    simp only [dispatchedIds, List.mem_cons, List.not_mem_nil, or_false, not_or] at hnot
    obtain ⟨h1, h2, h3, h4, h5, h6, h7⟩ := hnot
    unfold executeAction
    simp [h1, h2, h3, h4, h5, h6, h7]

/-- Witness for C2 at the declared but undispatched rollback action. -/
theorem C2_unknown_action_dispatch_witness :
    "github.security.rollback_baseline" ∉ dispatchedIds
    ∧ executeAction testEnv "github.security.rollback_baseline" "demo-token"
        { owner := "octo", repo := "hello" } false
      = .error (.unknownAction "github.security.rollback_baseline") :=
  ⟨by decide,
    (C2_unknown_action_dispatch testEnv "github.security.rollback_baseline"
      "demo-token" { owner := "octo", repo := "hello" } false).1.mpr (by decide)⟩

/-- C2 counterexample: github.security.rollback_baseline is declared by
getActions and its supported modes admit a non-dry (AUTO) execution, yet
executeAction rejects it with the unknown-action error instead of
dispatching it, and no unsupported-mode error exists anywhere. -/
theorem C2_counterexample :
    "github.security.rollback_baseline" ∈ getActions.map (fun a => a.id)
    ∧ (resolveCapability "github.security.rollback_baseline").map
        (fun a => a.supportedModes) = some [ExecutionMode.AUTO]
    ∧ executeAction testEnv "github.security.rollback_baseline" "demo-token"
        { owner := "octo", repo := "hello" } false
      = .error (.unknownAction "github.security.rollback_baseline") :=
  ⟨by decide, rfl, rfl⟩

/-- C3 (amended): every dry run of a rollback-YES action returns execution
mode PLAN_ONLY with a wouldApply/wouldEnable preview, but only
github.repo.set_branch_protection defines snapshot (in demo mode, the fixed
pre-change branch-protection state); the dry runs of the vulnerability-alert,
automated-security-fixes and baseline actions leave snapshot undefined. -/
theorem C3_dry_run_snapshot (env : ProviderEnv) (tok : String) (i : ActionInput) :
    (∀ r, executeAction env "github.repo.set_branch_protection" tok i true = .ok r →
        r.executionMode = .PLAN_ONLY ∧ r.snapshot.isSome = true
          ∧ r.output.hasKey "wouldApply" = true)
    ∧ (isDemoToken tok = true →
        executeAction env "github.repo.set_branch_protection" tok i true
            = .ok (setBranchProtectionMock i true env.nowIso)
          ∧ (setBranchProtectionMock i true env.nowIso).snapshot = some bpCurrentState
          ∧ (setBranchProtectionMock i true env.nowIso).executionMode = .PLAN_ONLY)
    ∧ (∀ r, executeAction env "github.repo.enable_vulnerability_alerts" tok i true = .ok r →
        r.executionMode = .PLAN_ONLY ∧ r.snapshot = none
          ∧ r.output.hasKey "wouldEnable" = true)
    ∧ (∀ r, executeAction env "github.repo.enable_automated_security_fixes" tok i true = .ok r →
        r.executionMode = .PLAN_ONLY ∧ r.snapshot = none
          ∧ r.output.hasKey "wouldEnable" = true)
    ∧ (∀ r, executeAction env "github.security.apply_baseline" tok i true = .ok r →
        r.executionMode = .PLAN_ONLY ∧ r.snapshot = none
          ∧ r.output.hasKey "wouldApply" = true) := by
  refine ⟨?_, ?_, ?_, ?_, ?_⟩
  · intro r hr
    replace hr : setBranchProtection env tok i true = .ok r := hr
    unfold setBranchProtection at hr
    split at hr
    · injection hr with h
      subst h
      exact ⟨rfl, rfl, rfl⟩
    · split at hr
      · exact absurd hr (by simp)
      · injection hr with h
        subst h
        exact ⟨rfl, rfl, rfl⟩
  · intro hdemo
    replace hdemo : isDemoToken tok = true := hdemo
    have h : setBranchProtection env tok i true = .ok (setBranchProtectionMock i true env.nowIso) := by
      unfold setBranchProtection
      rw [if_pos hdemo]
    exact ⟨h, rfl, rfl⟩
  · intro r hr
    replace hr : enableVulnerabilityAlerts env tok i true = .ok r := hr
    unfold enableVulnerabilityAlerts at hr
    split at hr
    · injection hr with h
      subst h
      exact ⟨rfl, rfl, rfl⟩
    · rw [if_pos rfl] at hr
      injection hr with h
      subst h
      exact ⟨rfl, rfl, rfl⟩
  · intro r hr
    replace hr : enableAutomatedSecurityFixes env tok i true = .ok r := hr
    unfold enableAutomatedSecurityFixes at hr
    split at hr
    · injection hr with h
      subst h
      exact ⟨rfl, rfl, rfl⟩
    · rw [if_pos rfl] at hr
      injection hr with h
      subst h
      exact ⟨rfl, rfl, rfl⟩
  · intro r hr
    replace hr : (if isDemoToken tok = true
        then (Except.ok (applySecurityBaselineMock i true env.nowIso) :
          Except ExecError ActionResult)
        else .error (.notImplemented "Security baseline requires full implementation"))
      = .ok r := hr
    split at hr
    · injection hr with h
      subst h
      exact ⟨rfl, rfl, rfl⟩
    · exact absurd hr (by simp)

/-- Witness for C3 at a demo-token dry run of set_branch_protection. -/
theorem C3_dry_run_snapshot_witness :
    isDemoToken "demo-token" = true
    ∧ (executeAction testEnv "github.repo.set_branch_protection" "demo-token"
          { owner := "octo", repo := "hello", branch := "main" } true
        = .ok (setBranchProtectionMock
            { owner := "octo", repo := "hello", branch := "main" } true testEnv.nowIso)
      ∧ (setBranchProtectionMock
            { owner := "octo", repo := "hello", branch := "main" } true testEnv.nowIso).snapshot
          = some bpCurrentState
      ∧ (setBranchProtectionMock
            { owner := "octo", repo := "hello", branch := "main" } true testEnv.nowIso).executionMode
          = .PLAN_ONLY) :=
  ⟨isDemoToken_demoTokenLit,
    (C3_dry_run_snapshot testEnv "demo-token"
      { owner := "octo", repo := "hello", branch := "main" }).2.1 isDemoToken_demoTokenLit⟩

/-- C3 counterexample: github.repo.enable_vulnerability_alerts declares
rollback YES, yet its dry run returns a result with no snapshot. -/
theorem C3_counterexample :
    (resolveCapability "github.repo.enable_vulnerability_alerts").map
        (fun a => a.rollback) = some Rollbackability.YES
    ∧ executeAction testEnv "github.repo.enable_vulnerability_alerts" "demo-token"
        { owner := "octo", repo := "hello" } true
      = .ok { output := .obj [("wouldEnable", .bool true),
                ("feature", .str "vulnerability_alerts")],
              evidence := .obj [("dryRun", .bool true)],
              executionMode := .PLAN_ONLY }
    ∧ ({ output := .obj [("wouldEnable", .bool true),
           ("feature", .str "vulnerability_alerts")],
         evidence := .obj [("dryRun", .bool true)],
         executionMode := .PLAN_ONLY } : ActionResult).snapshot = none := by
  refine ⟨rfl, ?_, rfl⟩
  show enableVulnerabilityAlerts testEnv "demo-token" { owner := "octo", repo := "hello" } true
    = _
  unfold enableVulnerabilityAlerts
  rw [if_pos isDemoToken_demoTokenLit]
  rfl

/-- C4: executing the rollback-YES action enable_vulnerability_alerts for
real produces a rollbackPlan targeting github.repo.disable_vulnerability_alerts,
an action id that is neither declared in the catalog nor dispatchable —
executeAction rejects it as unknown; likewise apply_baseline's rollback
target github.security.rollback_baseline is rejected as unknown. -/
theorem C4_rollback_target_not_executable :
    executeAction testEnv "github.repo.enable_vulnerability_alerts" "demo-token"
        { owner := "octo", repo := "hello" } false
      = .ok (enableVulnerabilityAlertsMock { owner := "octo", repo := "hello" }
          false testEnv.nowIso)
    ∧ (enableVulnerabilityAlertsMock { owner := "octo", repo := "hello" }
          false testEnv.nowIso).rollbackPlan.map (fun p => p.action)
      = some "github.repo.disable_vulnerability_alerts"
    ∧ "github.repo.disable_vulnerability_alerts" ∉ getActions.map (fun a => a.id)
    ∧ executeAction testEnv "github.repo.disable_vulnerability_alerts" "demo-token"
        { owner := "octo", repo := "hello" } false
      = .error (.unknownAction "github.repo.disable_vulnerability_alerts")
    ∧ (resolveCapability "github.security.apply_baseline").map (fun a => a.rollback)
      = some Rollbackability.YES
    ∧ (applySecurityBaselineMock { owner := "octo", repo := "hello" }
          false testEnv.nowIso).rollbackPlan.map (fun p => p.action)
      = some "github.security.rollback_baseline"
    ∧ executeAction testEnv "github.security.rollback_baseline" "demo-token"
        { owner := "octo", repo := "hello" } false
      = .error (.unknownAction "github.security.rollback_baseline") := by
  refine ⟨?_, rfl, by decide, rfl, rfl, rfl, rfl⟩
  show enableVulnerabilityAlerts testEnv "demo-token" { owner := "octo", repo := "hello" } false
    = _
  unfold enableVulnerabilityAlerts
  rw [if_pos isDemoToken_demoTokenLit]

/-- The step loop records successes up to the first failure and stops there. -/
theorem execSteps_first_failure (exec : PlanStep → Except ExecError ActionResult)
    (resultOf : PlanStep → ActionResult) :
    ∀ (pre post : List PlanStep) (f : PlanStep) (e : ExecError),
      (∀ s ∈ pre, exec s = .ok (resultOf s)) → exec f = .error e →
      execSteps exec (pre ++ f :: post)
        = (pre.map (fun s => .success s.actionId (resultOf s))
            ++ [.failure f.actionId e.message], some e.message) := by
  intro pre
  induction pre with
  | nil =>
    intro post f e _ hf
    simp only [List.nil_append, List.map_nil]
    unfold execSteps
    rw [hf]
  | cons s rest ih =>
    intro post f e hpre hf
    have hs : exec s = .ok (resultOf s) := hpre s (List.mem_cons_self s rest)
    simp only [List.cons_append, List.map_cons]
    unfold execSteps
    rw [hs, ih post f e (fun x hx => hpre x (List.mem_cons_of_mem s hx)) hf]

/-- C5: when a step fails, executePlan stops (the result does not depend on
the remaining steps), marks the Run FAILED with the failure's message, and
stepResults holds exactly the earlier successes plus the failing entry. -/
theorem C5_executor_stops_at_first_failure
    (exec : PlanStep → Except ExecError ActionResult)
    (resultOf : PlanStep → ActionResult)
    (pre post : List PlanStep) (f : PlanStep) (e : ExecError)
    (hpre : ∀ s ∈ pre, exec s = .ok (resultOf s)) (hf : exec f = .error e) :
    executePlan exec (pre ++ f :: post)
      = { success := false, status := .FAILED,
          stepResults := pre.map (fun s => .success s.actionId (resultOf s))
            ++ [.failure f.actionId e.message],
          error := some e.message }
    ∧ (executePlan exec (pre ++ f :: post)).stepResults.length = pre.length + 1 := by
  have h := execSteps_first_failure exec resultOf pre post f e hpre hf
  constructor
  · unfold executePlan
    rw [h]
  · unfold executePlan
    rw [h]
    simp

/-- The first plan step of the C5 witness: a read that succeeds. -/
def stepA : PlanStep :=
  { actionId := "github.repo.get_settings", input := { owner := "octo", repo := "hello" } }

/-- The second plan step of the C5 witness: the step that fails. -/
def stepB : PlanStep := { actionId := "fail.step", input := {} }

/-- The third plan step of the C5 witness: never reached. -/
def stepC : PlanStep := { actionId := "github.repo.get_branch_protection", input := {} }

/-- A concrete step executor for the C5 witness: fails exactly on the
fail.step id. -/
def witnessExec : PlanStep → Except ExecError ActionResult := fun s =>
  if s.actionId == "fail.step" then .error (.fetchFailed "boom")
  else .ok (getRepoSettingsMock s.input testEnv.nowIso)

/-- Witness for C5: plan [A, B, C] with B failing yields a FAILED run with
exactly two step results and the failure's message, and C never runs. -/
theorem C5_executor_stops_at_first_failure_witness :
    executePlan witnessExec [stepA, stepB, stepC]
      = { success := false, status := .FAILED,
          stepResults := [.success stepA.actionId (getRepoSettingsMock stepA.input testEnv.nowIso),
            .failure stepB.actionId "boom"],
          error := some "boom" }
    ∧ (executePlan witnessExec [stepA, stepB, stepC]).stepResults.length = 1 + 1 :=
  C5_executor_stops_at_first_failure witnessExec
    (fun s => getRepoSettingsMock s.input testEnv.nowIso)
    [stepA] [stepC] stepB (.fetchFailed "boom")
    (by
      intro s hs
      rw [List.mem_singleton] at hs
      subst hs
      rfl)
    rfl

/-- C7 (amended): a missing run, plan, capability profile, provider or
connection is answered with a 404 failure envelope and a descriptive
message by the direct-lookup endpoints, but the rollback endpoint maps a
missing run to a 400 failure instead, because it catches the executor's
run-not-found error and answers 400. -/
theorem C7_not_found_handling (env : ProviderEnv) (st : Store)
    (runId planId profId cid p : String) :
    (st.getRun runId = none → getRunRoute st runId
        = { status := 404, success := false, error := some "Run not found" })
    ∧ (st.getPlan planId = none → getPlanRoute st planId
        = { status := 404, success := false, error := some "Plan not found" })
    ∧ (st.getCapabilityProfile profId = none → getCapabilitiesRoute st profId
        = { status := 404, success := false, error := some "Capability profile not found" })
    ∧ (knownProvider p = false → startRoute p
        = { status := 404, success := false, error := some ("Unknown provider: " ++ p) })
    ∧ (st.getConnection cid = none → (discoverRoute env st p cid).1
        = { status := 404, success := false, error := some "Connection not found" })
    ∧ (st.getRun runId = none → rollbackRoute st runId
        = { status := 400, success := false, error := some "Run not found" }) := by
  refine ⟨?_, ?_, ?_, ?_, ?_, ?_⟩ <;> intro h
  · unfold getRunRoute
    rw [h]
  · unfold getPlanRoute
    rw [h]
  · unfold getCapabilitiesRoute
    rw [h]
  · unfold startRoute
    rw [if_neg (by simp [h])]
  · unfold discoverRoute
    rw [h]
  · unfold rollbackRoute
    rw [h]

/-- Witness for C7 on an empty store and an unknown provider. -/
theorem C7_not_found_handling_witness :
    getRunRoute {} "r1" = { status := 404, success := false, error := some "Run not found" }
    ∧ rollbackRoute {} "r1" = { status := 400, success := false, error := some "Run not found" } :=
  ⟨((C7_not_found_handling testEnv {} "r1" "p1" "c1" "c1" "gitlab").1 rfl),
    ((C7_not_found_handling testEnv {} "r1" "p1" "c1" "c1" "gitlab").2.2.2.2.2 rfl)⟩

/-- C7 counterexample: the rollback endpoint answers a missing run with
status 400, not 404. -/
theorem C7_counterexample :
    rollbackRoute {} "missing-run"
      = { status := 400, success := false, error := some "Run not found" }
    ∧ (400 : Nat) ≠ 404 :=
  ⟨rfl, by decide⟩

/-- riskMax dominates its left argument. -/
theorem le_riskMax_left (a b : RiskLevel) : riskValue a ≤ riskValue (riskMax a b) := by
  unfold riskMax
  split
  · assumption
  · exact Nat.le_refl _

/-- riskMax dominates its right argument. -/
theorem le_riskMax_right (a b : RiskLevel) : riskValue b ≤ riskValue (riskMax a b) := by
  unfold riskMax
  split
  · exact Nat.le_refl _
  · omega

/-- riskMax returns one of its arguments. -/
theorem riskMax_cases (a b : RiskLevel) : riskMax a b = a ∨ riskMax a b = b := by
  unfold riskMax
  split
  · exact Or.inr rfl
  · exact Or.inl rfl

/-- Folding riskMax never decreases the accumulator. -/
theorem foldl_riskMax_init_le (l : List RiskLevel) :
    ∀ init, riskValue init ≤ riskValue (l.foldl riskMax init) := by
  induction l with
  | nil => intro init; exact Nat.le_refl _
  | cons a t ih =>
    intro init
    exact Nat.le_trans (le_riskMax_left init a) (ih (riskMax init a))

/-- The riskMax fold is an upper bound of every list element. -/
theorem foldl_riskMax_mem_le (l : List RiskLevel) :
    ∀ init r, r ∈ l → riskValue r ≤ riskValue (l.foldl riskMax init) := by
  induction l with
  | nil =>
    intro init r hr
    cases hr
  | cons a t ih =>
    intro init r hr
    rcases List.mem_cons.mp hr with rfl | hr
    · exact Nat.le_trans (le_riskMax_right init r) (foldl_riskMax_init_le t (riskMax init r))
    · exact ih (riskMax init a) r hr

/-- The riskMax fold is attained: it is the initial value or a list element. -/
theorem foldl_riskMax_attained (l : List RiskLevel) :
    ∀ init, l.foldl riskMax init = init ∨ l.foldl riskMax init ∈ l := by
  induction l with
  | nil => intro init; exact Or.inl rfl
  | cons a t ih =>
    intro init
    rcases ih (riskMax init a) with h | h
    · rcases riskMax_cases init a with h2 | h2
      · rw [List.foldl_cons, h, h2]
        exact Or.inl rfl
      · right
        rw [List.foldl_cons, h, h2]
        exact List.mem_cons_self _ _
    · right
      rw [List.foldl_cons]
      exact List.mem_cons_of_mem a h

/-- C8: a generated plan's riskLevel is the maximum risk over its steps'
resolved capabilities: it dominates every resolved step risk, and it is
either the LOW base or attained by some resolved step. -/
theorem C8_plan_risk_is_max (actionIds : List String) :
    (∀ c ∈ actionIds.filterMap resolveCapability,
        riskValue c.risk ≤ riskValue (planRiskLevel actionIds))
    ∧ (planRiskLevel actionIds = .LOW
        ∨ ∃ c ∈ actionIds.filterMap resolveCapability, c.risk = planRiskLevel actionIds) := by
  have hfold : planRiskLevel actionIds
      = ((actionIds.filterMap resolveCapability).map (fun x => x.risk)).foldl riskMax .LOW := by
    unfold planRiskLevel
    rw [List.foldl_map]
  constructor
  · intro c hc
    rw [hfold]
    exact foldl_riskMax_mem_le _ _ _ (List.mem_map_of_mem _ hc)
  · rcases foldl_riskMax_attained
        ((actionIds.filterMap resolveCapability).map (fun x => x.risk)) .LOW with h | h
    · left
      rw [hfold, h]
    · right
      rcases List.mem_map.mp h with ⟨c, hc, hrisk⟩
      exact ⟨c, hc, by rw [hfold, hrisk]⟩

/-- Witness for C8: a plan mixing a LOW read with the HIGH rollback action
has the HIGH capability's risk bounded by (indeed equal to) the plan risk. -/
theorem C8_plan_risk_is_max_witness :
    (GITHUB_ACTIONS.get ⟨7, by decide⟩)
        ∈ (["github.repo.get_settings", "github.security.rollback_baseline"].filterMap
            resolveCapability)
    ∧ riskValue (GITHUB_ACTIONS.get ⟨7, by decide⟩).risk
        ≤ riskValue (planRiskLevel
            ["github.repo.get_settings", "github.security.rollback_baseline"])
    ∧ planRiskLevel ["github.repo.get_settings", "github.security.rollback_baseline"]
        = .HIGH :=
  ⟨by decide,
    (C8_plan_risk_is_max ["github.repo.get_settings", "github.security.rollback_baseline"]).1
      (GITHUB_ACTIONS.get ⟨7, by decide⟩) (by decide),
    by decide⟩

/-- A demo token short-circuits discovery to the fixed demo result. -/
theorem discoverCapabilities_demo (tok : String) (user : UserFetch)
    (h : isDemoToken tok = true) :
    discoverCapabilities tok user = .ok demoDiscoveryResult := by
  unfold discoverCapabilities
  rw [if_pos h]

/-- Updating the record found under a key, with an id-preserving update,
updates exactly the record the lookup returns. -/
theorem find_map_update (l : List StoredConnection) (cid : String)
    (f : StoredConnection → StoredConnection)
    (hf : ∀ c, (f c).id = c.id) :
    (l.map (fun c => if c.id == cid then f c else c)).find? (fun c => c.id == cid)
      = (l.find? (fun c => c.id == cid)).map f := by
  induction l with
  | nil => rfl
  | cons a t ih =>
    simp only [List.map_cons]
    cases h : (a.id == cid) with
    | true =>
      rw [if_pos rfl]
      rw [@List.find?_cons_of_pos _ (fun c => c.id == cid) (f a) _
        (show ((f a).id == cid) = true by rw [hf a]; exact h)]
      rw [@List.find?_cons_of_pos _ (fun c => c.id == cid) a _ h]
      rfl
    | false =>
      rw [if_neg (by simp)]
      rw [@List.find?_cons_of_neg _ (fun c => c.id == cid) a
        (List.map (fun c => if (c.id == cid) = true then f c else c) t) (by simp [h])]
      rw [@List.find?_cons_of_neg _ (fun c => c.id == cid) a t (by simp [h])]
      exact ih

/-- The success path of the discover route: with a found connection, a known
provider and a successful discovery, the route snapshots a fresh profile and
rewrites the connection's lastDiscoveredAt and authLevel. -/
theorem discoverRoute_found (env : ProviderEnv) (st : Store) (p cid : String)
    (conn : StoredConnection) (caps : CapabilityDiscoveryResult)
    (hc : st.getConnection cid = some conn)
    (hp : knownProvider p = true)
    (hd : discoverCapabilities ((conn.accessToken).getD "") env.user = .ok caps) :
    discoverRoute env st p cid
      = ({ status := 200, success := true },
         ({ st with
            profiles := { connectionId := conn.id,
                          actions := caps.actions,
                          readableCapabilities := caps.readableScopes,
                          writeCapabilities := caps.writableScopes,
                          limitations := caps.missingScopes } :: st.profiles,
            nextId := st.nextId + 1 }).updateConnection conn.id (fun c =>
          { c with
            lastDiscoveredAt := some env.nowMs,
            authLevel := if caps.writableScopes.length > 0 then .WRITE_LOW else .READ })) := by
  unfold discoverRoute
  rw [hc]
  rw [hp]
  simp only [Bool.not_true, Bool.false_eq_true, if_false]
  rw [hd]

/-- The test provider environment with a small clock value, so the minted
demo token has a kernel-computable digit suffix. -/
def testEnv2 : ProviderEnv := { testEnv with nowMs := 42 }

/-- The connection the demo connect bootstrap creates in testEnv2 over an
empty store. -/
def demoConn42 : StoredConnection :=
  { id := "conn-0", tenantId := DEMO_TENANT_ID, userId := "u1", provider := "github",
    accountId := some "demo-account", accountName := some "Demo GitHub Account",
    authLevel := .WRITE_HIGH,
    scopes := ["repo", "read:org", "admin:repo_hook", "read:user"],
    status := "ACTIVE",
    accessToken := some "demo-access-token-42",
    refreshToken := none,
    tokenExpiresAt := some 2592000042,
    lastDiscoveredAt := some 42 }

/-- The capability profile the demo connect bootstrap snapshots. -/
def demoProfile42 : CapabilityProfile :=
  { connectionId := "conn-0", actions := GITHUB_ACTIONS,
    readableCapabilities := demoDiscoveryResult.readableScopes,
    writeCapabilities := demoDiscoveryResult.writableScopes,
    limitations := [] }

/-- The store state after the demo connect bootstrap in testEnv2. -/
def connectStore42 : Store :=
  { connections := [demoConn42], profiles := [demoProfile42],
    auditEvents := [("connection.create", "connection:conn-0")], nextId := 1 }

/-- Discovery over the bootstrapped connection's stored token is demo
discovery. -/
theorem discoverConn42_demo :
    discoverCapabilities ((demoConn42.accessToken).getD "") testEnv2.user
      = .ok demoDiscoveryResult :=
  discoverCapabilities_demo _ _ (by
    show isDemoToken "demo-access-token-42" = true
    rw [show ("demo-access-token-42" : String) = "demo-" ++ "access-token-42" from by decide]
    exact isDemoToken_demo_append "access-token-42")

/-- The demo connect bootstrap over an empty store produces exactly the
bootstrapped connection and profile. -/
theorem connectRoute_demo42 :
    connectRoute testEnv2 {} "github" "u1"
      = ({ status := 201, success := true }, connectStore42) := by
  have hd : discoverCapabilities
      (exchangeCodeForToken (testEnv2.nowMs)).accessToken testEnv2.user
      = .ok demoDiscoveryResult :=
    discoverCapabilities_demo _ _ (isDemoToken_exchange _)
  simp only [connectRoute, knownProvider]
  rw [hd]
  rfl

/-- C9: a successful discover request rewrites the stored connection's
authLevel to WRITE_LOW exactly when the discovered writable scopes are
non-empty and to READ otherwise — never WRITE_HIGH; and the demo connect
bootstrap creates the connection at WRITE_HIGH, after which its first
discovery (a demo token, hence non-empty writable scopes) downgrades it to
WRITE_LOW. -/
theorem C9_discover_sets_authLevel (env : ProviderEnv) (st : Store) (p cid : String) :
    ((discoverRoute env st p cid).1.success = true →
      ∃ conn caps,
        st.getConnection cid = some conn
        ∧ discoverCapabilities ((conn.accessToken).getD "") env.user = .ok caps
        ∧ ((discoverRoute env st p cid).2.getConnection cid).map (fun c => c.authLevel)
            = some (if caps.writableScopes.length > 0 then AuthLevel.WRITE_LOW else .READ)
        ∧ (if caps.writableScopes.length > 0 then AuthLevel.WRITE_LOW else .READ)
            ≠ .WRITE_HIGH)
    ∧ (((connectRoute testEnv2 {} "github" "u1").2.getConnection "conn-0").map
          (fun c => c.authLevel) = some AuthLevel.WRITE_HIGH)
    ∧ (((discoverRoute testEnv2 (connectRoute testEnv2 {} "github" "u1").2 "github"
          "conn-0").2.getConnection "conn-0").map (fun c => c.authLevel)
        = some AuthLevel.WRITE_LOW) := by
  refine ⟨?_, ?_, ?_⟩
  · intro hs
    cases hc : st.getConnection cid with
    | none =>
      unfold discoverRoute at hs
      rw [hc] at hs
      simp at hs
    | some conn =>
      cases hp : knownProvider p with
      | false =>
        unfold discoverRoute at hs
        rw [hc, hp] at hs
        simp at hs
      | true =>
        cases hd : discoverCapabilities ((conn.accessToken).getD "") env.user with
        | error e =>
          unfold discoverRoute at hs
          rw [hc, hp] at hs
          simp only [Bool.not_true, Bool.false_eq_true, if_false] at hs
          rw [hd] at hs
          simp at hs
        | ok caps =>
          refine ⟨conn, caps, rfl, hd, ?_, by split <;> decide⟩
          rw [discoverRoute_found env st p cid conn caps hc hp hd]
          have hid : conn.id = cid := by
            have := List.find?_some hc
            exact eq_of_beq this
          show ((({ st with
              profiles := _ :: st.profiles,
              nextId := st.nextId + 1 } : Store).updateConnection conn.id
                _).connections.find? (fun c => c.id == cid)).map (fun c => c.authLevel) = _
          unfold Store.updateConnection
          simp only [hid]
          rw [find_map_update st.connections cid (fun c =>
            { c with
              lastDiscoveredAt := some env.nowMs,
              authLevel := if caps.writableScopes.length > 0 then .WRITE_LOW else .READ })
            (fun c => rfl)]
          have hfind : st.connections.find? (fun c => c.id == cid) = some conn := hc
          rw [hfind]
          rfl
  · rw [connectRoute_demo42]
    rfl
  · rw [connectRoute_demo42]
    rw [discoverRoute_found testEnv2 connectStore42 "github" "conn-0" demoConn42
      demoDiscoveryResult rfl rfl discoverConn42_demo]
    rfl

/-- Witness for C9 at the bootstrapped demo connection. -/
theorem C9_discover_sets_authLevel_witness :
    (discoverRoute testEnv2 connectStore42 "github" "conn-0").1.success = true
    ∧ ∃ conn caps,
        connectStore42.getConnection "conn-0" = some conn
        ∧ discoverCapabilities ((conn.accessToken).getD "") testEnv2.user = .ok caps
        ∧ ((discoverRoute testEnv2 connectStore42 "github" "conn-0").2.getConnection
              "conn-0").map (fun c => c.authLevel)
          = some (if caps.writableScopes.length > 0 then AuthLevel.WRITE_LOW else .READ)
        ∧ (if caps.writableScopes.length > 0 then AuthLevel.WRITE_LOW else .READ)
            ≠ .WRITE_HIGH := by
  have hsucc : (discoverRoute testEnv2 connectStore42 "github" "conn-0").1.success = true := by
    rw [discoverRoute_found testEnv2 connectStore42 "github" "conn-0" demoConn42
      demoDiscoveryResult rfl rfl discoverConn42_demo]
  exact ⟨hsucc,
    (C9_discover_sets_authLevel testEnv2 connectStore42 "github" "conn-0").1 hsucc⟩

/-- C10: the empty token and every demo-prefixed token are demo credentials:
discovery on them never fails and returns the full eight-action catalog with
no missing scopes and demoMode metadata; hence a discover request for a
connection with no stored access token (the route passes the token defaulted
to "") succeeds with full capabilities. -/
theorem C10_demo_token_discovery (tok : String) (user : UserFetch) (env : ProviderEnv)
    (st : Store) (cid : String) (conn : StoredConnection) :
    (isDemoToken tok = true → discoverCapabilities tok user = .ok demoDiscoveryResult)
    ∧ demoDiscoveryResult.actions.length = 8
    ∧ demoDiscoveryResult.missingScopes = []
    ∧ demoDiscoveryResult.metadata.demoMode = true
    ∧ isDemoToken "" = true
    ∧ (tok.startsWith "demo-" = true → isDemoToken tok = true)
    ∧ (st.getConnection cid = some conn → conn.accessToken = none →
        (discoverRoute env st "github" cid).1 = { status := 200, success := true }
        ∧ ((discoverRoute env st "github" cid).2.profiles.head?).map
            (fun pr => pr.actions.length) = some 8) := by
  refine ⟨fun h => discoverCapabilities_demo tok user h, rfl, rfl, rfl, rfl, ?_, ?_⟩
  · intro h
    unfold isDemoToken
    rw [h]
    simp
  · intro hc htok
    have hd : discoverCapabilities ((conn.accessToken).getD "") env.user
        = .ok demoDiscoveryResult := by
      rw [htok]
      exact discoverCapabilities_demo "" env.user rfl
    rw [discoverRoute_found env st "github" cid conn demoDiscoveryResult hc rfl hd]
    exact ⟨rfl, rfl⟩

/-- A stored connection with no access token, for the C10 witness. -/
def tokenlessConn : StoredConnection :=
  { id := "c1", tenantId := DEMO_TENANT_ID, userId := "u1", provider := "github",
    authLevel := .READ, scopes := [], status := "ACTIVE" }

/-- A store holding only the token-less connection. -/
def tokenlessStore : Store := { connections := [tokenlessConn] }

/-- Witness for C10 at the empty token and a demo-prefixed token. -/
theorem C10_demo_token_discovery_witness :
    discoverCapabilities "" testEnv.user = .ok demoDiscoveryResult
    ∧ isDemoToken "demo-token" = true
    ∧ (discoverRoute testEnv tokenlessStore "github" "c1").1
        = { status := 200, success := true } :=
  ⟨(C10_demo_token_discovery "" testEnv.user testEnv tokenlessStore "c1" tokenlessConn).1 rfl,
    (C10_demo_token_discovery "demo-token" testEnv.user testEnv tokenlessStore "c1"
        tokenlessConn).2.2.2.2.2.1
      (by
        rw [show ("demo-token" : String) = "demo-" ++ "token" from by decide]
        exact startsWithAppend "demo-" "token"),
    ((C10_demo_token_discovery "" testEnv.user testEnv tokenlessStore "c1"
        tokenlessConn).2.2.2.2.2.2 rfl rfl).1⟩

end AAPS
